import Mathlib

/-!
# Expense-Tracker backend: shallow embedding and verification

This file embeds the Express/MySQL backend of the Expense-Tracker
repository (the single server file registering the routes `/register`,
`/login`, `/addexpense`, `/expenses`, `/delete_expense/:id`,
`/expense/:id`, `/update_expense/:id`, `/limit` and `/report/today|month|year`)
as executable Lean definitions, and proves or refutes the frozen claims
about it.

Modelling conventions:
* The `register` table and the `expenses` table are lists of records,
  in insertion order.
* SQL `DATETIME` values are a record of calendar date and time of day;
  `ORDER BY` clauses are modelled by a stable insertion sort under the
  corresponding lexicographic boolean comparison.
* JavaScript numbers are modelled as rationals (`ℚ`); `parseInt` and
  `parseFloat` are modelled on decimal numeral strings with the same
  prefix-parsing behaviour (a string with no parsable numeric prefix
  gives `none`, standing for `NaN`).
* Request fields arrive as strings (form/query encoding); a missing or
  empty field is the empty string (JavaScript falsiness of `""`), and
  the `date` body field is modelled as an `Option` of an already parsed
  datetime, since MySQL parses the date string on insertion.
-/

namespace ExpenseTracker

/-- A calendar date, as stored in the `DATETIME` column (date part). -/
structure Date where
  year : Nat
  month : Nat
  day : Nat
deriving DecidableEq

/-- A point in time as stored in a MySQL `DATETIME` column. -/
structure DateTime where
  date : Date
  hour : Nat
  minute : Nat
  second : Nat
deriving DecidableEq

/-- A row of the `expenses` table. -/
structure Expense where
  id : Int
  userid : Int
  date : DateTime
  expensename : String
  amount : ℚ
  paymode : String
  category : String
deriving DecidableEq

/-- A row of the `register` table.  `spending_limit` is a nullable
decimal column (`none` = SQL `NULL`). -/
structure RegisterRow where
  id : Int
  username : String
  email : String
  password : String
  spending_limit : Option ℚ
deriving DecidableEq

/-- Numeric value of a list of decimal digit characters. -/
def digitsVal (cs : List Char) : Nat :=
  cs.foldl (fun a c => a * 10 + (c.toNat - 48)) 0

/-- JavaScript `parseInt(s)` on decimal numerals: an optional sign
followed by a longest prefix of digits; `none` models `NaN` (no digit at
the front). -/
def parseIntJS (s : String) : Option Int :=
  let cs := s.toList
  let neg : Bool := cs.head? = some '-'
  let rest := if neg || cs.head? = some '+' then cs.tail else cs
  let ds := rest.takeWhile Char.isDigit
  if ds.isEmpty then none
  else if neg then some (-(digitsVal ds : Int)) else some (digitsVal ds : Int)

/-- JavaScript `parseFloat(s)` on decimal numerals: an optional sign,
an integer part and an optional fractional part, parsed as a longest
prefix; `none` models `NaN`. -/
def parseFloatQ (s : String) : Option ℚ :=
  let cs := s.toList
  let neg : Bool := cs.head? = some '-'
  let rest := if neg || cs.head? = some '+' then cs.tail else cs
  let intPart := rest.takeWhile Char.isDigit
  let magnitude : Option ℚ :=
    match rest.drop intPart.length with
    | '.' :: r =>
      let fracPart := r.takeWhile Char.isDigit
      if intPart.isEmpty && fracPart.isEmpty then none
      else some ((digitsVal intPart : ℚ) + (digitsVal fracPart : ℚ) / ((10 : ℚ) ^ fracPart.length))
    | _ => if intPart.isEmpty then none else some (digitsVal intPart : ℚ)
  match magnitude with
  | none => none
  | some m => some (if neg then -m else m)

/-- Lexicographic boolean comparison of equal-length numeric keys,
used to model SQL `ORDER BY` over dates and datetimes. -/
def keyLe : List Nat → List Nat → Bool
  | [], _ => true
  | _ :: _, [] => false
  | a :: as, b :: bs => decide (a < b) || (decide (a = b) && keyLe as bs)

/-- Sort key of a calendar date. -/
def Date.sortKey (d : Date) : List Nat :=
  [d.year, d.month, d.day]

/-- Sort key of a datetime (`ORDER BY date` on the `DATETIME` column). -/
def DateTime.sortKey (d : DateTime) : List Nat :=
  [d.date.year, d.date.month, d.date.day, d.hour, d.minute, d.second]

/-- `ORDER BY` comparison on calendar dates (ascending). -/
def dateLe (a b : Date) : Bool :=
  keyLe a.sortKey b.sortKey

/-- `ORDER BY` comparison on datetimes (ascending). -/
def dtLe (a b : DateTime) : Bool :=
  keyLe a.sortKey b.sortKey

/-- `ORDER BY date DESC, id DESC` comparison on expense rows ("comes
before" relation of the result set). -/
def rawDescLe (a b : Expense) : Bool :=
  if a.date = b.date then decide (b.id ≤ a.id) else dtLe b.date a.date

/-- Character class `[^\s@]` of the email regular expression. -/
def isEmailChar (c : Char) : Bool :=
  !c.isWhitespace && !(c = '@')

/-- The email check `/^[^\s@]+@[^\s@]+\.[^\s@]+$/` of the `/register`
route: a nonempty `@`/whitespace-free local part, one `@`, and a domain
that is `@`/whitespace-free and contains a dot that is neither its first
nor its last character. -/
def validEmail (s : String) : Bool :=
  let cs := s.toList
  let localPart := cs.takeWhile isEmailChar
  match cs.drop localPart.length with
  | '@' :: domain =>
    !localPart.isEmpty && domain.all isEmailChar &&
      ((domain.drop 1).dropLast.any fun c => c = '.')
  | _ => false

/-- The username check `/^[A-Za-z0-9_.-]+$/` of the `/register` route. -/
def validUsername (s : String) : Bool :=
  !s.isEmpty && s.toList.all fun c => c.isAlphanum || c = '_' || c = '.' || c = '-'

/-- Outcome of `POST /register`. -/
inductive RegisterResult where
  | error400 (msg : String)
  | conflict409
  | created201
deriving DecidableEq

/-- `POST /register`.  `hash` models `bcrypt.hash` (an external one-way
function), `nextId` the auto-increment id of the inserted row.  The
duplicate-account lookup runs before the email and username format
checks, exactly as in the route. -/
def register (db : List RegisterRow) (hash : String → String) (nextId : Int)
    (username email password : String) : RegisterResult × List RegisterRow :=
  if username = "" || email = "" || password = "" then
    (.error400 "Please fill out all fields!", db)
  else if db.any (fun r => r.username = username || r.email = email) then
    (.conflict409, db)
  else if !validEmail email then
    (.error400 "Invalid email address!", db)
  else if !validUsername username then
    (.error400 "Username can only contain letters, numbers, underscores, dots, and hyphens!", db)
  else
    (.created201, db ++ [⟨nextId, username, email, hash password, none⟩])

/-- The public user projection returned by a successful login. -/
structure PublicUser where
  id : Int
  username : String
  email : String
deriving DecidableEq

/-- Outcome of `POST /login`. -/
inductive LoginResult where
  | error400 (msg : String)
  | unauthorized401
  | success (user : PublicUser)
deriving DecidableEq

/-- `POST /login`.  `cmp` models `bcrypt.compare` (submitted plaintext
against stored hash).  A missing account and a failed hash comparison
fall into the same `else` branch of the route, producing one generic
401 response. -/
def login (db : List RegisterRow) (cmp : String → String → Bool)
    (username password : String) : LoginResult :=
  if username = "" || password = "" then
    .error400 "Please enter username and password!"
  else
    match (db.filter fun r => r.username = username).head? with
    | some account =>
      if cmp password account.password then
        .success ⟨account.id, account.username, account.email⟩
      else
        .unauthorized401
    | none => .unauthorized401

/-- Outcome of `POST /addexpense`. -/
inductive AddResult where
  | error400 (msg : String)
  | created201
deriving DecidableEq

/-- `POST /addexpense`.  `nextId` models the auto-increment id.  The
route validates presence of all fields and numeric parses of `userid`
and `amount`; it never inspects the sign of the amount. -/
def addexpense (db : List Expense) (nextId : Int) (userid : String)
    (date : Option DateTime) (expensename amount paymode category : String) :
    AddResult × List Expense :=
  if userid = "" then (.error400 "User ID is required!", db)
  else
    match parseIntJS userid with
    | none => (.error400 "Invalid User ID format!", db)
    | some userIdNum =>
      if date.isNone || expensename = "" || amount = "" || paymode = "" || category = "" then
        (.error400 "Please fill out all fields for expense!", db)
      else
        match parseFloatQ amount, date with
        | none, _ => (.error400 "Invalid amount format! Amount must be a number.", db)
        | some _, none => (.error400 "Please fill out all fields for expense!", db)
        | some amountNum, some d =>
          (.created201, db ++ [⟨nextId, userIdNum, d, expensename, amountNum, paymode, category⟩])

/-- An expense row as serialized by the API: the date formatted to
`YYYY-MM-DD` (date part only) and the amount as a number. -/
structure RawExpenseOut where
  id : Int
  userid : Int
  date : Date
  expensename : String
  amount : ℚ
  paymode : String
  category : String
deriving DecidableEq

/-- Row formatting applied before responding (`moment(...).format`
date-only plus `parseFloat` of the decimal column). -/
def formatExpense (e : Expense) : RawExpenseOut :=
  ⟨e.id, e.userid, e.date.date, e.expensename, e.amount, e.paymode, e.category⟩

/-- Outcome of `DELETE /delete_expense/:expense_id`. -/
inductive DeleteResult where
  | error400 (msg : String)
  | notFound404
  | deleted200
deriving DecidableEq

/-- `DELETE /delete_expense/:expense_id`.  One statement deletes the
rows matching both id and owner; `affectedRows > 0` decides the status
(modelled as the length decrease of the filtered table). -/
def delete_expense (db : List Expense) (expense_id : Int) (userid : String) :
    DeleteResult × List Expense :=
  if userid = "" then (.error400 "User ID is required!", db)
  else
    match parseIntJS userid with
    | none => (.error400 "Invalid User ID format!", db)
    | some userIdNum =>
      let remaining := db.filter fun e => !(e.id = expense_id && e.userid = userIdNum)
      if remaining.length < db.length then (.deleted200, remaining)
      else (.notFound404, remaining)

/-- Outcome of `GET /expense/:expense_id`. -/
inductive GetOneResult where
  | error400 (msg : String)
  | notFound404
  | found (data : RawExpenseOut)
deriving DecidableEq

/-- `GET /expense/:expense_id`: single lookup joining id and owner in
one predicate; `rows[0]` of the result set. -/
def get_expense (db : List Expense) (expense_id : Int) (userid : String) :
    GetOneResult :=
  if userid = "" then .error400 "User ID is required!"
  else
    match parseIntJS userid with
    | none => .error400 "Invalid User ID format!"
    | some userIdNum =>
      match (db.filter fun e => e.id = expense_id && e.userid = userIdNum).head? with
      | some e => .found (formatExpense e)
      | none => .notFound404

/-- Outcome of `PUT /update_expense/:expense_id`. -/
inductive UpdateResult where
  | error400 (msg : String)
  | notFound404
  | updated200
  | noChanges200
deriving DecidableEq

/-- The row produced by the `UPDATE` statement for a matching row. -/
def updatedRow (e : Expense) (d : DateTime)
    (expensename : String) (amountNum : ℚ) (paymode category : String) : Expense :=
  { e with date := d, expensename := expensename, amount := amountNum,
           paymode := paymode, category := category }

/-- `PUT /update_expense/:expense_id`.  After input validation the route
first checks existence-and-ownership with a single `SELECT`, then runs
the `UPDATE`; `affectedRows` counts rows actually changed (MySQL
default), giving the "No changes detected" branch. -/
def update_expense (db : List Expense) (expense_id : Int) (userid : String)
    (date : Option DateTime) (expensename amount paymode category : String) :
    UpdateResult × List Expense :=
  if userid = "" then (.error400 "User ID is required!", db)
  else
    match parseIntJS userid with
    | none => (.error400 "Invalid User ID format!", db)
    | some userIdNum =>
      if date.isNone || expensename = "" || amount = "" || paymode = "" || category = "" then
        (.error400 "Please fill out all fields for expense update!", db)
      else
        match parseFloatQ amount, date with
        | none, _ => (.error400 "Invalid amount format! Amount must be a number.", db)
        | some _, none => (.error400 "Please fill out all fields for expense update!", db)
        | some amountNum, some d =>
          if (db.filter fun e => e.id = expense_id && e.userid = userIdNum).isEmpty then
            (.notFound404, db)
          else
            let newdb := db.map fun e =>
              if e.id = expense_id && e.userid = userIdNum then
                updatedRow e d expensename amountNum paymode category
              else e
            let changed := db.countP fun e =>
              (e.id = expense_id && e.userid = userIdNum) &&
                !(updatedRow e d expensename amountNum paymode category = e)
            if 0 < changed then (.updated200, newdb) else (.noChanges200, newdb)

/-- Outcome of `GET /limit`. -/
inductive GetLimitResult where
  | error400 (msg : String)
  | ok (limit : ℚ)
deriving DecidableEq

/-- `GET /limit`: `rows[0]` of the lookup; a missing row and a `NULL`
`spending_limit` both produce the default `0.0`, with status success. -/
def get_limit (db : List RegisterRow) (userid : String) : GetLimitResult :=
  if userid = "" then .error400 "User ID is required!"
  else
    match parseIntJS userid with
    | none => .error400 "Invalid User ID format!"
    | some userIdNum =>
      match (db.filter fun r => r.id = userIdNum).head? with
      | some r =>
        match r.spending_limit with
        | some l => .ok l
        | none => .ok 0
      | none => .ok 0

/-- Outcome of `POST /limit`. -/
inductive SetLimitResult where
  | error400 (msg : String)
  | notFound404
  | created201
deriving DecidableEq

/-- `POST /limit`.  The only validation on the value is presence and
`isNaN(parseFloat(...))`; the parsed value is stored as-is.
`affectedRows` counts rows actually changed (MySQL default), so an
unchanged limit also takes the 404 branch of the route. -/
def set_limit (db : List RegisterRow) (userid : String) (number_str : String) :
    SetLimitResult × List RegisterRow :=
  if userid = "" then (.error400 "User ID is required!", db)
  else
    match parseIntJS userid with
    | none => (.error400 "Invalid User ID format!", db)
    | some userIdNum =>
      if number_str = "" then (.error400 "Limit value is required!", db)
      else
        match parseFloatQ number_str with
        | none => (.error400 "Invalid limit format! Limit must be a number.", db)
        | some limit_value =>
          let newdb := db.map fun r =>
            if r.id = userIdNum then { r with spending_limit := some limit_value } else r
          let changed := db.countP fun r =>
            r.id = userIdNum && !(r.spending_limit = some limit_value)
          if changed = 0 then (.notFound404, newdb)
          else (.created201, newdb)

/-- One point of the today report's time series: date-only label,
time of day formatted at minute granularity (`%H:%i`), and the amount. -/
structure TimePoint where
  date_only : Date
  time_of_day : Nat × Nat
  amount : ℚ
deriving DecidableEq

/-- One bucket of the month report (`GROUP BY DATE(date)`). -/
structure DailyTotal where
  day : Date
  total_amount : ℚ
deriving DecidableEq

/-- One bucket of the year report (`GROUP BY MONTH(date)`). -/
structure MonthlyTotal where
  month_num : Nat
  month_name : String
  total_amount : ℚ
deriving DecidableEq

/-- MySQL `MONTHNAME` on the month number of a valid date. -/
def monthName : Nat → String
  | 1 => "January" | 2 => "February" | 3 => "March" | 4 => "April"
  | 5 => "May" | 6 => "June" | 7 => "July" | 8 => "August"
  | 9 => "September" | 10 => "October" | 11 => "November" | 12 => "December"
  | _ => ""

/-- `WHERE userid = ? AND DATE(date) = ?` of the today report. -/
def todayMatch (uid : Int) (today : Date) (e : Expense) : Bool :=
  e.userid = uid && e.date.date = today

/-- `WHERE userid = ? AND MONTH(date) = MONTH(CURDATE()) AND
YEAR(date) = YEAR(CURDATE())` of the month report. -/
def monthMatch (uid : Int) (now : Date) (e : Expense) : Bool :=
  e.userid = uid && e.date.date.month = now.month && e.date.date.year = now.year

/-- `WHERE userid = ? AND YEAR(date) = YEAR(CURDATE())` of the year
report. -/
def yearMatch (uid : Int) (now : Date) (e : Expense) : Bool :=
  e.userid = uid && e.date.date.year = now.year

/-- `categoryTotals[k] = (categoryTotals[k] || 0) + v` on a JavaScript
object modelled as an association list in insertion order. -/
def upsert (m : List (String × ℚ)) (k : String) (v : ℚ) : List (String × ℚ) :=
  match m with
  | [] => [(k, v)]
  | (k₁, v₁) :: rest =>
    if k₁ = k then (k₁, v₁ + v) :: rest else (k₁, v₁) :: upsert rest k v

/-- `rawExpenses.reduce((sum, exp) => sum + exp.amount, 0)`. -/
def totalOf (raw : List RawExpenseOut) : ℚ :=
  raw.foldl (fun s e => s + e.amount) 0

/-- The `categoryTotals` accumulation loop over the raw expense list. -/
def categoryTotalsOf (raw : List RawExpenseOut) : List (String × ℚ) :=
  raw.foldl (fun m e => upsert m e.category e.amount) []

/-- The raw-expense query shared by the three reports: filter by the
window predicate, `ORDER BY date DESC, id DESC`, format each row. -/
def rawQuery (db : List Expense) (pred : Expense → Bool) : List RawExpenseOut :=
  ((db.filter pred).insertionSort fun a b => rawDescLe a b = true).map formatExpense

/-- Payload of `GET /report/today`. -/
structure TodayReport where
  time_series_data : List TimePoint
  raw_expenses : List RawExpenseOut
  total_expenses : ℚ
  category_totals : List (String × ℚ)
deriving DecidableEq

/-- Payload of `GET /report/month`. -/
structure MonthReport where
  daily_totals : List DailyTotal
  raw_expenses : List RawExpenseOut
  total_expenses : ℚ
  category_totals : List (String × ℚ)
deriving DecidableEq

/-- Payload of `GET /report/year`. -/
structure YearReport where
  monthly_totals : List MonthlyTotal
  raw_expenses : List RawExpenseOut
  total_expenses : ℚ
  category_totals : List (String × ℚ)
deriving DecidableEq

/-- The today report: the time-series query has no `GROUP BY` — one row
per matching expense, `ORDER BY date` ascending — and the totals are
folded over the raw list. -/
def buildTodayReport (db : List Expense) (uid : Int) (today : Date) : TodayReport :=
  let timeSeries :=
    ((db.filter (todayMatch uid today)).insertionSort fun a b => dtLe a.date b.date = true).map
      fun e => TimePoint.mk e.date.date (e.date.hour, e.date.minute) e.amount
  let raw := rawQuery db (todayMatch uid today)
  ⟨timeSeries, raw, totalOf raw, categoryTotalsOf raw⟩

/-- The month report: `GROUP BY DATE(date) ORDER BY DATE(date)` with
`SUM(amount)` per day, modelled as the sorted deduplicated day list with
a per-day sum. -/
def buildMonthReport (db : List Expense) (uid : Int) (now : Date) : MonthReport :=
  let rows := db.filter (monthMatch uid now)
  let days := ((rows.map fun e => e.date.date).dedup).insertionSort fun a b => dateLe a b = true
  let daily := days.map fun d =>
    DailyTotal.mk d (((rows.filter fun e => e.date.date = d).map Expense.amount).sum)
  let raw := rawQuery db (monthMatch uid now)
  ⟨daily, raw, totalOf raw, categoryTotalsOf raw⟩

/-- The year report: `GROUP BY MONTH(date) ORDER BY MONTH(date)` with
`SUM(amount)` per month. -/
def buildYearReport (db : List Expense) (uid : Int) (now : Date) : YearReport :=
  let rows := db.filter (yearMatch uid now)
  let months := ((rows.map fun e => e.date.date.month).dedup).insertionSort fun a b => a ≤ b
  let monthly := months.map fun m =>
    MonthlyTotal.mk m (monthName m)
      (((rows.filter fun e => e.date.date.month = m).map Expense.amount).sum)
  let raw := rawQuery db (yearMatch uid now)
  ⟨monthly, raw, totalOf raw, categoryTotalsOf raw⟩

/-- Response of a report route: either the 400 validation error of the
`userid` checks, or the succeeding payload. -/
inductive Resp (α : Type) where
  | error400 (msg : String)
  | ok (data : α)
deriving DecidableEq

/-- `GET /report/today` (the `today` argument models the server's
current date `moment().format(..)` at call time). -/
def report_today (db : List Expense) (userid : String) (today : Date) :
    Resp TodayReport :=
  if userid = "" then .error400 "User ID is required!"
  else
    match parseIntJS userid with
    | none => .error400 "Invalid User ID format!"
    | some uid => .ok (buildTodayReport db uid today)

/-- `GET /report/month` (`now` models `CURDATE()`). -/
def report_month (db : List Expense) (userid : String) (now : Date) :
    Resp MonthReport :=
  if userid = "" then .error400 "User ID is required!"
  else
    match parseIntJS userid with
    | none => .error400 "Invalid User ID format!"
    | some uid => .ok (buildMonthReport db uid now)

/-- `GET /report/year` (`now` models `CURDATE()`). -/
def report_year (db : List Expense) (userid : String) (now : Date) :
    Resp YearReport :=
  if userid = "" then .error400 "User ID is required!"
  else
    match parseIntJS userid with
    | none => .error400 "Invalid User ID format!"
    | some uid => .ok (buildYearReport db uid now)

/-! ## Helper lemmas -/

theorem keyLe_trans : ∀ a b c : List Nat, keyLe a b = true → keyLe b c = true → keyLe a c = true := by
  intro a
  induction a with
  | nil => intro b c _ _; simp [keyLe]
  | cons x as ih =>
    intro b c hab hbc
    cases b with
    | nil => simp [keyLe] at hab
    | cons y bs =>
      cases c with
      | nil => simp [keyLe] at hbc
      | cons z cs =>
        simp only [keyLe, Bool.or_eq_true, Bool.and_eq_true, decide_eq_true_eq] at hab hbc ⊢
        rcases hab with h1 | ⟨h1, h1'⟩
        · rcases hbc with h2 | ⟨h2, h2'⟩
          · exact Or.inl (h1.trans h2)
          · exact Or.inl (h2 ▸ h1)
        · rcases hbc with h2 | ⟨h2, h2'⟩
          · exact Or.inl (h1 ▸ h2)
          · exact Or.inr ⟨h1.trans h2, ih bs cs h1' h2'⟩

theorem keyLe_total : ∀ a b : List Nat, keyLe a b || keyLe b a := by
  intro a
  induction a with
  | nil => intro b; simp [keyLe]
  | cons x as ih =>
    intro b
    cases b with
    | nil => simp [keyLe]
    | cons y bs =>
      have htot := ih bs
      simp only [keyLe, Bool.or_eq_true, Bool.and_eq_true, decide_eq_true_eq] at htot ⊢
      rcases Nat.lt_trichotomy x y with h | h | h
      · exact Or.inl (Or.inl h)
      · rcases htot with h' | h'
        · exact Or.inl (Or.inr ⟨h, h'⟩)
        · exact Or.inr (Or.inr ⟨h.symm, h'⟩)
      · exact Or.inr (Or.inl h)

/-- Within a single calendar date, the `ORDER BY date` comparison is the
lexicographic hour/minute/second order; at minute granularity it is
nondecreasing in (hour, minute). -/
theorem dtLe_same_date {a b : DateTime} (hd : a.date = b.date) (h : dtLe a b = true) :
    a.hour < b.hour ∨ (a.hour = b.hour ∧ a.minute ≤ b.minute) := by
  obtain ⟨⟨ya, ma, da⟩, ha, mia, sa⟩ := a
  obtain ⟨⟨yb, mb, db⟩, hb, mib, sb⟩ := b
  simp only [Date.mk.injEq, DateTime.mk.injEq] at hd
  obtain ⟨rfl, rfl, rfl⟩ := hd
  simp only [dtLe, DateTime.sortKey, keyLe, Bool.or_eq_true, Bool.and_eq_true,
    decide_eq_true_eq] at h
  show ha < hb ∨ (ha = hb ∧ mia ≤ mib)
  omega

theorem foldl_add_amount (raw : List RawExpenseOut) (s : ℚ) :
    raw.foldl (fun s e => s + e.amount) s = s + (raw.map RawExpenseOut.amount).sum := by
  induction raw generalizing s with
  | nil => simp
  | cons e rest ih => simp [ih, add_assoc]

theorem totalOf_eq_sum (raw : List RawExpenseOut) :
    totalOf raw = (raw.map RawExpenseOut.amount).sum := by
  simp [totalOf, foldl_add_amount]

theorem upsert_snd_sum (m : List (String × ℚ)) (k : String) (v : ℚ) :
    ((upsert m k v).map Prod.snd).sum = (m.map Prod.snd).sum + v := by
  induction m with
  | nil => simp [upsert]
  | cons p rest ih =>
    obtain ⟨k₁, v₁⟩ := p
    by_cases h : k₁ = k
    · simp [upsert, h]; ring
    · simp [upsert, h, ih]; ring

theorem catfold_snd_sum (raw : List RawExpenseOut) (m : List (String × ℚ)) :
    ((raw.foldl (fun m e => upsert m e.category e.amount) m).map Prod.snd).sum
      = (m.map Prod.snd).sum + (raw.map RawExpenseOut.amount).sum := by
  induction raw generalizing m with
  | nil => simp
  | cons e rest ih => simp [ih, upsert_snd_sum]; ring

theorem categoryTotalsOf_sum (raw : List RawExpenseOut) :
    ((categoryTotalsOf raw).map Prod.snd).sum = totalOf raw := by
  simp [categoryTotalsOf, catfold_snd_sum, totalOf_eq_sum]

/-- `parseIntJS` of the empty string is `NaN`. -/
theorem parseIntJS_empty : parseIntJS "" = none := by decide

/-- `parseFloatQ` of the empty string is `NaN`. -/
theorem parseFloatQ_empty : parseFloatQ "" = none := by decide

/-! ## Claims -/

/-- C1: for every user and every report window (today, month, year),
the report returned by the aggregation endpoint has `total_expenses`
equal to the arithmetic sum of the amounts of its `raw_expenses` list,
and the sum of the values of `category_totals` equal to
`total_expenses`. -/
theorem C1_report_totals_consistent
    (db : List Expense) (userid : String) (now : Date)
    (rt : TodayReport) (rm : MonthReport) (ry : YearReport)
    (ht : report_today db userid now = Resp.ok rt)
    (hm : report_month db userid now = Resp.ok rm)
    (hy : report_year db userid now = Resp.ok ry) :
    (rt.total_expenses = (rt.raw_expenses.map RawExpenseOut.amount).sum ∧
      (rt.category_totals.map Prod.snd).sum = rt.total_expenses) ∧
    (rm.total_expenses = (rm.raw_expenses.map RawExpenseOut.amount).sum ∧
      (rm.category_totals.map Prod.snd).sum = rm.total_expenses) ∧
    (ry.total_expenses = (ry.raw_expenses.map RawExpenseOut.amount).sum ∧
      (ry.category_totals.map Prod.snd).sum = ry.total_expenses) := by
  by_cases hne : userid = ""
  · simp [report_today, hne] at ht
  cases hp : parseIntJS userid with
  | none => simp [report_today, hne, hp] at ht
  | some uid =>
    simp only [report_today, hne, if_false, hp] at ht
    simp only [report_month, hne, if_false, hp] at hm
    simp only [report_year, hne, if_false, hp] at hy
    cases ht; cases hm; cases hy
    refine ⟨⟨?_, ?_⟩, ⟨?_, ?_⟩, ⟨?_, ?_⟩⟩ <;>
      simp [buildTodayReport, buildMonthReport, buildYearReport,
        totalOf_eq_sum, categoryTotalsOf_sum]

theorem C1_report_totals_consistent_witness :
    report_today [⟨1, 1, ⟨⟨2024, 5, 15⟩, 9, 30, 0⟩, "coffee", 3, "cash", "food"⟩] "1" ⟨2024, 5, 15⟩
      = Resp.ok (buildTodayReport [⟨1, 1, ⟨⟨2024, 5, 15⟩, 9, 30, 0⟩, "coffee", 3, "cash", "food"⟩] 1 ⟨2024, 5, 15⟩) ∧
    report_month [⟨1, 1, ⟨⟨2024, 5, 15⟩, 9, 30, 0⟩, "coffee", 3, "cash", "food"⟩] "1" ⟨2024, 5, 15⟩
      = Resp.ok (buildMonthReport [⟨1, 1, ⟨⟨2024, 5, 15⟩, 9, 30, 0⟩, "coffee", 3, "cash", "food"⟩] 1 ⟨2024, 5, 15⟩) ∧
    report_year [⟨1, 1, ⟨⟨2024, 5, 15⟩, 9, 30, 0⟩, "coffee", 3, "cash", "food"⟩] "1" ⟨2024, 5, 15⟩
      = Resp.ok (buildYearReport [⟨1, 1, ⟨⟨2024, 5, 15⟩, 9, 30, 0⟩, "coffee", 3, "cash", "food"⟩] 1 ⟨2024, 5, 15⟩) ∧
    ((buildTodayReport [⟨1, 1, ⟨⟨2024, 5, 15⟩, 9, 30, 0⟩, "coffee", 3, "cash", "food"⟩] 1 ⟨2024, 5, 15⟩).total_expenses
        = ((buildTodayReport [⟨1, 1, ⟨⟨2024, 5, 15⟩, 9, 30, 0⟩, "coffee", 3, "cash", "food"⟩] 1 ⟨2024, 5, 15⟩).raw_expenses.map RawExpenseOut.amount).sum ∧
      ((buildTodayReport [⟨1, 1, ⟨⟨2024, 5, 15⟩, 9, 30, 0⟩, "coffee", 3, "cash", "food"⟩] 1 ⟨2024, 5, 15⟩).category_totals.map Prod.snd).sum
        = (buildTodayReport [⟨1, 1, ⟨⟨2024, 5, 15⟩, 9, 30, 0⟩, "coffee", 3, "cash", "food"⟩] 1 ⟨2024, 5, 15⟩).total_expenses) ∧
    ((buildMonthReport [⟨1, 1, ⟨⟨2024, 5, 15⟩, 9, 30, 0⟩, "coffee", 3, "cash", "food"⟩] 1 ⟨2024, 5, 15⟩).total_expenses
        = ((buildMonthReport [⟨1, 1, ⟨⟨2024, 5, 15⟩, 9, 30, 0⟩, "coffee", 3, "cash", "food"⟩] 1 ⟨2024, 5, 15⟩).raw_expenses.map RawExpenseOut.amount).sum ∧
      ((buildMonthReport [⟨1, 1, ⟨⟨2024, 5, 15⟩, 9, 30, 0⟩, "coffee", 3, "cash", "food"⟩] 1 ⟨2024, 5, 15⟩).category_totals.map Prod.snd).sum
        = (buildMonthReport [⟨1, 1, ⟨⟨2024, 5, 15⟩, 9, 30, 0⟩, "coffee", 3, "cash", "food"⟩] 1 ⟨2024, 5, 15⟩).total_expenses) ∧
    ((buildYearReport [⟨1, 1, ⟨⟨2024, 5, 15⟩, 9, 30, 0⟩, "coffee", 3, "cash", "food"⟩] 1 ⟨2024, 5, 15⟩).total_expenses
        = ((buildYearReport [⟨1, 1, ⟨⟨2024, 5, 15⟩, 9, 30, 0⟩, "coffee", 3, "cash", "food"⟩] 1 ⟨2024, 5, 15⟩).raw_expenses.map RawExpenseOut.amount).sum ∧
      ((buildYearReport [⟨1, 1, ⟨⟨2024, 5, 15⟩, 9, 30, 0⟩, "coffee", 3, "cash", "food"⟩] 1 ⟨2024, 5, 15⟩).category_totals.map Prod.snd).sum
        = (buildYearReport [⟨1, 1, ⟨⟨2024, 5, 15⟩, 9, 30, 0⟩, "coffee", 3, "cash", "food"⟩] 1 ⟨2024, 5, 15⟩).total_expenses) :=
  ⟨rfl, rfl, rfl,
    C1_report_totals_consistent _ "1" ⟨2024, 5, 15⟩ _ _ _ rfl rfl rfl⟩

/-- The database of Scenario A: user 1 with the expenses
(2024-05-01, 10, food) and (2024-05-02, 20, rent). -/
def dbC6 : List Expense :=
  [⟨1, 1, ⟨⟨2024, 5, 1⟩, 10, 0, 0⟩, "groceries", 10, "cash", "food"⟩,
   ⟨2, 1, ⟨⟨2024, 5, 2⟩, 11, 0, 0⟩, "rent", 20, "card", "rent"⟩]

/-- C6: for a user whose only expenses are (2024-05-01, 10, food) and
(2024-05-02, 20, rent), the month report requested in May 2024 returns
total 30, category totals mapping food to 10 and rent to 20 (and
nothing else), and the daily series [(2024-05-01, 10), (2024-05-02, 20)]
grouped and summed per calendar day, ascending by day. -/
theorem C6_month_scenarioA :
    report_month dbC6 "1" ⟨2024, 5, 15⟩
      = Resp.ok (buildMonthReport dbC6 1 ⟨2024, 5, 15⟩) ∧
    (buildMonthReport dbC6 1 ⟨2024, 5, 15⟩).total_expenses = 30 ∧
    (buildMonthReport dbC6 1 ⟨2024, 5, 15⟩).category_totals.lookup "food" = some 10 ∧
    (buildMonthReport dbC6 1 ⟨2024, 5, 15⟩).category_totals.lookup "rent" = some 20 ∧
    (buildMonthReport dbC6 1 ⟨2024, 5, 15⟩).category_totals.length = 2 ∧
    (buildMonthReport dbC6 1 ⟨2024, 5, 15⟩).daily_totals
      = [⟨⟨2024, 5, 1⟩, 10⟩, ⟨⟨2024, 5, 2⟩, 20⟩] := by
  refine ⟨rfl, ?_, ?_, ?_, ?_, ?_⟩ <;>
    (norm_num [buildMonthReport, rawQuery, totalOf, categoryTotalsOf, dbC6, monthMatch,
      rawDescLe, dtLe, dateLe, keyLe, Date.sortKey, DateTime.sortKey, formatExpense,
      upsert] <;> decide)

/-- C7: for every user and window, if zero expenses match the window
then the report is a success with `total_expenses = 0`, empty
`category_totals`, empty `raw_expenses` and an empty bucket series. -/
theorem C7_empty_window
    (db : List Expense) (userid : String) (uid : Int) (now : Date)
    (hp : parseIntJS userid = some uid) :
    ((∀ e ∈ db, todayMatch uid now e = false) →
      report_today db userid now = Resp.ok ⟨[], [], 0, []⟩) ∧
    ((∀ e ∈ db, monthMatch uid now e = false) →
      report_month db userid now = Resp.ok ⟨[], [], 0, []⟩) ∧
    ((∀ e ∈ db, yearMatch uid now e = false) →
      report_year db userid now = Resp.ok ⟨[], [], 0, []⟩) := by
  have hne : userid ≠ "" := by
    intro h
    rw [h, parseIntJS_empty] at hp
    cases hp
  refine ⟨fun h => ?_, fun h => ?_, fun h => ?_⟩
  · have hf : db.filter (todayMatch uid now) = [] :=
      List.filter_eq_nil_iff.mpr fun e he => by simp [h e he]
    simp [report_today, hne, hp, buildTodayReport, rawQuery, hf, totalOf, categoryTotalsOf]
  · have hf : db.filter (monthMatch uid now) = [] :=
      List.filter_eq_nil_iff.mpr fun e he => by simp [h e he]
    simp [report_month, hne, hp, buildMonthReport, rawQuery, hf, totalOf, categoryTotalsOf]
  · have hf : db.filter (yearMatch uid now) = [] :=
      List.filter_eq_nil_iff.mpr fun e he => by simp [h e he]
    simp [report_year, hne, hp, buildYearReport, rawQuery, hf, totalOf, categoryTotalsOf]

theorem C7_empty_window_witness :
    parseIntJS "1" = some 1 ∧
    report_today [] "1" ⟨2024, 5, 15⟩ = Resp.ok ⟨[], [], 0, []⟩ ∧
    report_month [] "1" ⟨2024, 5, 15⟩ = Resp.ok ⟨[], [], 0, []⟩ ∧
    report_year [] "1" ⟨2024, 5, 15⟩ = Resp.ok ⟨[], [], 0, []⟩ :=
  ⟨by decide,
   (C7_empty_window [] "1" 1 ⟨2024, 5, 15⟩ (by decide)).1 (by simp),
   (C7_empty_window [] "1" 1 ⟨2024, 5, 15⟩ (by decide)).2.1 (by simp),
   (C7_empty_window [] "1" 1 ⟨2024, 5, 15⟩ (by decide)).2.2 (by simp)⟩

/-- C2: for every expense id and requesting user, read-single, update
and delete all return the NotFound outcome both when the id does not
exist and when the expense belongs to a different user — the combined
hypothesis `no row matches id AND owner` covers exactly these two cases,
and all of them map to the one `notFound404` value, so the cases are
indistinguishable — and the stored table is returned unchanged. -/
theorem C2_notfound_indistinguishable
    (db : List Expense) (eid : Int) (userid : String) (uid : Int)
    (d : DateTime) (ename amt pm cat : String) (q : ℚ)
    (hp : parseIntJS userid = some uid)
    (hen : ename ≠ "") (hpm : pm ≠ "") (hcat : cat ≠ "")
    (hq : parseFloatQ amt = some q)
    (hnone : ∀ e ∈ db, ¬(e.id = eid ∧ e.userid = uid)) :
    get_expense db eid userid = .notFound404 ∧
    delete_expense db eid userid = (.notFound404, db) ∧
    update_expense db eid userid (some d) ename amt pm cat = (.notFound404, db) := by
  have hne : userid ≠ "" := by
    intro h
    rw [h, parseIntJS_empty] at hp
    cases hp
  have hamt : amt ≠ "" := by
    intro h
    rw [h, parseFloatQ_empty] at hq
    cases hq
  have hfilter : db.filter (fun e => e.id = eid && e.userid = uid) = [] :=
    List.filter_eq_nil_iff.mpr fun e he => by simpa using hnone e he
  have hkeep : db.filter (fun e => !(e.id = eid && e.userid = uid)) = db :=
    List.filter_eq_self.mpr fun e he => by
      have h := hnone e he
      simp only [Bool.not_eq_true', Bool.and_eq_false_iff, decide_eq_false_iff_not,
        decide_eq_true_eq]
      tauto
  refine ⟨?_, ?_, ?_⟩
  · simp [get_expense, hne, hp, hfilter]
  · simp only [delete_expense, hne, if_false, hp]
    rw [hkeep]
    simp
  · simp [update_expense, hne, hp, hen, hamt, hpm, hcat, hq, hfilter]

theorem C2_notfound_indistinguishable_witness :
    get_expense [⟨1, 2, ⟨⟨2024, 5, 1⟩, 9, 0, 0⟩, "x", 5, "cash", "food"⟩] 1 "1"
      = GetOneResult.notFound404 ∧
    delete_expense [⟨1, 2, ⟨⟨2024, 5, 1⟩, 9, 0, 0⟩, "x", 5, "cash", "food"⟩] 1 "1"
      = (DeleteResult.notFound404, [⟨1, 2, ⟨⟨2024, 5, 1⟩, 9, 0, 0⟩, "x", 5, "cash", "food"⟩]) ∧
    update_expense [⟨1, 2, ⟨⟨2024, 5, 1⟩, 9, 0, 0⟩, "x", 5, "cash", "food"⟩] 1 "1"
        (some ⟨⟨2024, 5, 1⟩, 9, 0, 0⟩) "x" "5" "cash" "food"
      = (UpdateResult.notFound404, [⟨1, 2, ⟨⟨2024, 5, 1⟩, 9, 0, 0⟩, "x", 5, "cash", "food"⟩]) :=
  C2_notfound_indistinguishable
    [⟨1, 2, ⟨⟨2024, 5, 1⟩, 9, 0, 0⟩, "x", 5, "cash", "food"⟩] 1 "1" 1
    ⟨⟨2024, 5, 1⟩, 9, 0, 0⟩ "x" "5" "cash" "food" 5
    (by decide) (by decide) (by decide) (by decide) (by decide) (by decide)

/-- C8: every failed login — unknown username or failed hash comparison
— produces the same generic 401 outcome, and the login result depends on
the submitted password only through the hash-comparison function: two
passwords indistinguishable under `cmp` (in particular, a password that
happens to equal the stored hash) give identical responses, so no
plaintext equality against the stored value is ever observable. -/
theorem C8_login_generic_and_hash_only
    (db : List RegisterRow) (cmp : String → String → Bool) (u p : String)
    (hu : u ≠ "") (hp : p ≠ "") :
    ((db.filter fun r => r.username = u).head? = none →
      login db cmp u p = .unauthorized401) ∧
    (∀ acc, (db.filter fun r => r.username = u).head? = some acc →
      cmp p acc.password = false → login db cmp u p = .unauthorized401) ∧
    (∀ p₂, p₂ ≠ "" → (∀ h, cmp p h = cmp p₂ h) →
      login db cmp u p = login db cmp u p₂) := by
  refine ⟨fun hnone => ?_, fun acc hacc hcmp => ?_, fun p₂ hp₂ hagree => ?_⟩
  · simp [login, hu, hp, hnone]
  · simp [login, hu, hp, hacc, hcmp]
  · cases hhead : (db.filter fun r => r.username = u).head? with
    | none => simp [login, hu, hp, hp₂, hhead]
    | some acc => simp [login, hu, hp, hp₂, hhead, hagree acc.password]

theorem C8_login_generic_and_hash_only_witness :
    login [⟨1, "alice", "a@b.c", "HASH", none⟩] (fun a b => a == b) "bob" "pw"
      = LoginResult.unauthorized401 ∧
    login [⟨1, "alice", "a@b.c", "HASH", none⟩] (fun a b => a == b) "alice" "pw"
      = LoginResult.unauthorized401 ∧
    login [⟨1, "alice", "a@b.c", "HASH", none⟩] (fun _ _ => false) "alice" "x"
      = login [⟨1, "alice", "a@b.c", "HASH", none⟩] (fun _ _ => false) "alice" "HASH" :=
  ⟨(C8_login_generic_and_hash_only [⟨1, "alice", "a@b.c", "HASH", none⟩]
      (fun a b => a == b) "bob" "pw" (by decide) (by decide)).1 (by decide),
   (C8_login_generic_and_hash_only [⟨1, "alice", "a@b.c", "HASH", none⟩]
      (fun a b => a == b) "alice" "pw" (by decide) (by decide)).2.1
      ⟨1, "alice", "a@b.c", "HASH", none⟩ (by decide) (by decide),
   (C8_login_generic_and_hash_only [⟨1, "alice", "a@b.c", "HASH", none⟩]
      (fun _ _ => false) "alice" "x" (by decide) (by decide)).2.2
      "HASH" (by decide) (fun _ => rfl)⟩

/-- C9: the duplicate-account lookup of registration runs before the
email and username format validations: whenever some stored row already
carries the requested username or email, the result is Conflict (409)
with no row inserted — regardless of whether the submitted email is
syntactically valid. -/
theorem C9_register_conflict_precedes_validation
    (db : List RegisterRow) (hash : String → String) (nextId : Int)
    (username email password : String)
    (hu : username ≠ "") (he : email ≠ "") (hp : password ≠ "")
    (hdup : ∃ r ∈ db, r.username = username ∨ r.email = email) :
    register db hash nextId username email password = (.conflict409, db) := by
  have hany : db.any (fun r => r.username = username || r.email = email) = true := by
    rw [List.any_eq_true]
    obtain ⟨r, hr, hor⟩ := hdup
    exact ⟨r, hr, by simpa using hor⟩
  simp [register, hu, he, hp, hany]

theorem C9_register_conflict_precedes_validation_witness :
    register [⟨1, "alice", "a@b.c", "h1", none⟩] (fun s => s) 2 "alice" "not-an-email" "pw"
      = (RegisterResult.conflict409, [⟨1, "alice", "a@b.c", "h1", none⟩]) ∧
    validEmail "not-an-email" = false :=
  ⟨C9_register_conflict_precedes_validation
      [⟨1, "alice", "a@b.c", "h1", none⟩] (fun s => s) 2 "alice" "not-an-email" "pw"
      (by decide) (by decide) (by decide)
      ⟨⟨1, "alice", "a@b.c", "h1", none⟩, by decide, Or.inl (by decide)⟩,
   by decide⟩

/-- C10: for a userid that has no row in the `register` table, getLimit
returns success with limit 0 — the very same result as for an existing
user whose `spending_limit` is NULL — and not a NotFound error. -/
theorem C10_get_limit_default_zero
    (db db₂ : List RegisterRow) (userid : String) (uid : Int) (r : RegisterRow)
    (hp : parseIntJS userid = some uid)
    (habsent : ∀ x ∈ db, x.id ≠ uid)
    (hr : (db₂.filter fun x => x.id = uid).head? = some r)
    (hnull : r.spending_limit = none) :
    get_limit db userid = .ok 0 ∧ get_limit db₂ userid = .ok 0 := by
  have hne : userid ≠ "" := by
    intro h
    rw [h, parseIntJS_empty] at hp
    cases hp
  have hfilter : db.filter (fun x => x.id = uid) = [] :=
    List.filter_eq_nil_iff.mpr fun x hx => by simpa using habsent x hx
  constructor
  · simp [get_limit, hne, hp, hfilter]
  · simp [get_limit, hne, hp, hr, hnull]

theorem C10_get_limit_default_zero_witness :
    get_limit [⟨2, "bob", "b@c.d", "h2", some 5⟩] "1" = GetLimitResult.ok 0 ∧
    get_limit [⟨1, "alice", "a@b.c", "h1", none⟩] "1" = GetLimitResult.ok 0 :=
  C10_get_limit_default_zero
    [⟨2, "bob", "b@c.d", "h2", some 5⟩] [⟨1, "alice", "a@b.c", "h1", none⟩] "1" 1
    ⟨1, "alice", "a@b.c", "h1", none⟩
    (by decide) (by decide) (by decide) (by decide)

/-- C3 (counterexample): a negative limit value is NOT rejected by
`POST /limit`: on the input string "-5" the route parses -5, accepts it
with status 201, and stores the negative limit. -/
theorem C3_counterexample :
    parseFloatQ "-5" = some (-5) ∧ ((-5 : ℚ) < 0) ∧
    set_limit [⟨1, "u", "e@f.g", "h", none⟩] "1" "-5"
      = (SetLimitResult.created201, [⟨1, "u", "e@f.g", "h", some (-5)⟩]) := by
  refine ⟨by decide, by decide, by decide⟩

/-- C3 (amended): the only validation applied to the limit value is
presence and `isNaN(parseFloat(...))`: an empty or unparsable value is
rejected with a validation error and the table is left unchanged, while
every value that parses as a number — including a negative one — is
accepted and written as-is to the matching user's `spending_limit`
(no non-negativity check, no clamping). -/
theorem C3_amended_only_nan_rejected
    (db : List RegisterRow) (userid : String) (uid : Int) (number_str : String)
    (hp : parseIntJS userid = some uid) :
    ((number_str = "" ∨ parseFloatQ number_str = none) →
      ∃ msg, set_limit db userid number_str = (.error400 msg, db)) ∧
    (∀ q, parseFloatQ number_str = some q → number_str ≠ "" →
      (set_limit db userid number_str).2
        = db.map fun r => if r.id = uid then { r with spending_limit := some q } else r) := by
  have hne : userid ≠ "" := by
    intro h
    rw [h, parseIntJS_empty] at hp
    cases hp
  constructor
  · rintro (h | h)
    · exact ⟨"Limit value is required!", by simp [set_limit, hne, hp, h]⟩
    · by_cases h0 : number_str = ""
      · exact ⟨"Limit value is required!", by simp [set_limit, hne, hp, h0]⟩
      · exact ⟨"Invalid limit format! Limit must be a number.",
          by simp [set_limit, hne, hp, h0, h]⟩
  · intro q hq h0
    simp only [set_limit, hne, if_false, hp, h0, hq]
    split <;> rfl

theorem C3_amended_only_nan_rejected_witness :
    parseIntJS "1" = some 1 ∧
    (∃ msg, set_limit [⟨1, "u", "e@f.g", "h", none⟩] "1" "abc"
      = (SetLimitResult.error400 msg, [⟨1, "u", "e@f.g", "h", none⟩])) ∧
    (set_limit [⟨1, "u", "e@f.g", "h", none⟩] "1" "-5").2
      = [⟨1, "u", "e@f.g", "h", none⟩].map
          (fun r => if r.id = 1 then { r with spending_limit := some (-5) } else r) :=
  ⟨by decide,
   (C3_amended_only_nan_rejected [⟨1, "u", "e@f.g", "h", none⟩] "1" 1 "abc"
      (by decide)).1 (Or.inr (by decide)),
   (C3_amended_only_nan_rejected [⟨1, "u", "e@f.g", "h", none⟩] "1" 1 "-5"
      (by decide)).2 (-5) (by decide) (by decide)⟩

/-- C4 (counterexample): a negative amount is NOT rejected: addexpense
accepts the amount string "-10" and stores the expense with amount -10,
and update_expense accepts "-4" and stores -4. -/
theorem C4_counterexample :
    addexpense [] 7 "1" (some ⟨⟨2024, 5, 1⟩, 10, 0, 0⟩) "lunch" "-10" "cash" "food"
      = (AddResult.created201,
         [⟨7, 1, ⟨⟨2024, 5, 1⟩, 10, 0, 0⟩, "lunch", -10, "cash", "food"⟩]) ∧
    ((-10 : ℚ) < 0) ∧
    update_expense [⟨3, 1, ⟨⟨2024, 5, 1⟩, 10, 0, 0⟩, "x", 5, "cash", "food"⟩] 3 "1"
        (some ⟨⟨2024, 5, 1⟩, 10, 0, 0⟩) "x" "-4" "cash" "food"
      = (UpdateResult.updated200,
         [⟨3, 1, ⟨⟨2024, 5, 1⟩, 10, 0, 0⟩, "x", -4, "cash", "food"⟩]) := by
  refine ⟨by decide, by decide, by decide⟩

/-- C4 (amended): every expense accepted by add or update stores the
parsed numeric value of the submitted amount string unchanged — the only
amount validation is `isNaN(parseFloat(...))`; the sign is never
checked, so the stored amount equals the parsed value whatever its
sign. -/
theorem C4_amended_amount_parsed_unchecked (db : List Expense) :
    (∀ (nextId : Int) (userid : String) (d : DateTime) (ename amt pm cat : String)
        (db' : List Expense),
      addexpense db nextId userid (some d) ename amt pm cat = (.created201, db') →
      ∃ uid q, parseIntJS userid = some uid ∧ parseFloatQ amt = some q ∧
        db' = db ++ [⟨nextId, uid, d, ename, q, pm, cat⟩]) ∧
    (∀ (eid : Int) (userid : String) (d : DateTime) (ename amt pm cat : String)
        (res : UpdateResult) (db' : List Expense),
      update_expense db eid userid (some d) ename amt pm cat = (res, db') →
      res = .updated200 ∨ res = .noChanges200 →
      ∃ uid q, parseIntJS userid = some uid ∧ parseFloatQ amt = some q ∧
        ∀ e ∈ db', e.id = eid → e.userid = uid → e.amount = q) := by
  constructor
  · intro nextId userid d ename amt pm cat db' hadd
    by_cases h1 : userid = ""
    · simp [addexpense, h1] at hadd
    cases hu : parseIntJS userid with
    | none => simp [addexpense, h1, hu] at hadd
    | some uid =>
      cases hq : parseFloatQ amt with
      | none =>
        simp only [addexpense, h1, if_false, hu, hq, Option.isNone_some,
          Bool.false_or] at hadd
        split at hadd <;> simp at hadd
      | some q =>
        simp only [addexpense, h1, if_false, hu, hq, Option.isNone_some,
          Bool.false_or] at hadd
        split at hadd
        · simp at hadd
        · simp only [Prod.mk.injEq] at hadd
          exact ⟨uid, q, rfl, rfl, hadd.2.symm⟩
  · intro eid userid d ename amt pm cat res db' hupd hres
    by_cases h1 : userid = ""
    · simp [update_expense, h1, Prod.mk.injEq] at hupd
      rcases hres with h | h <;> subst h <;> simp_all
    cases hu : parseIntJS userid with
    | none =>
      simp [update_expense, h1, hu, Prod.mk.injEq] at hupd
      rcases hres with h | h <;> subst h <;> simp_all
    | some uid =>
      cases hq : parseFloatQ amt with
      | none =>
        simp only [update_expense, h1, if_false, hu, hq] at hupd
        split at hupd
        · rcases hres with h | h <;> subst h <;> simp_all
        · rcases hres with h | h <;> subst h <;> simp_all
      | some q =>
        refine ⟨uid, q, rfl, rfl, ?_⟩
        simp only [update_expense, h1, if_false, hu, hq, Option.isNone_some,
          Bool.false_or] at hupd
        split at hupd
        · rcases hres with h | h <;> subst h <;> simp_all
        · split at hupd
          · rcases hres with h | h <;> subst h <;> simp_all
          · have hdb' : db' = db.map fun e =>
                if e.id = eid && e.userid = uid then
                  updatedRow e d ename q pm cat
                else e := by
              split at hupd <;>
                (simp only [Prod.mk.injEq] at hupd; exact hupd.2.symm)
            subst hdb'
            intro e he hid huid
            rcases List.mem_map.mp he with ⟨x, hx, rfl⟩
            by_cases hxm : (x.id = eid && x.userid = uid) = true
            · simp [hxm, updatedRow]
            · rw [if_neg hxm] at hid huid ⊢
              exact absurd (by simp [hid, huid]) hxm

theorem C4_amended_amount_parsed_unchecked_witness :
    addexpense [] 7 "1" (some ⟨⟨2024, 5, 1⟩, 10, 0, 0⟩) "lunch" "-10" "cash" "food"
      = (AddResult.created201,
         [⟨7, 1, ⟨⟨2024, 5, 1⟩, 10, 0, 0⟩, "lunch", -10, "cash", "food"⟩]) ∧
    ∃ uid q, parseIntJS "1" = some uid ∧ parseFloatQ "-10" = some q ∧
      ([⟨7, 1, ⟨⟨2024, 5, 1⟩, 10, 0, 0⟩, "lunch", -10, "cash", "food"⟩] : List Expense)
        = ([] : List Expense)
          ++ [⟨7, uid, ⟨⟨2024, 5, 1⟩, 10, 0, 0⟩, "lunch", q, "cash", "food"⟩] :=
  ⟨by decide,
   (C4_amended_amount_parsed_unchecked []).1 7 "1" ⟨⟨2024, 5, 1⟩, 10, 0, 0⟩
     "lunch" "-10" "cash" "food"
     [⟨7, 1, ⟨⟨2024, 5, 1⟩, 10, 0, 0⟩, "lunch", -10, "cash", "food"⟩] (by decide)⟩

/-- C5: in the today report the bucket series has exactly one point per
matching expense (no summing of same-minute expenses), the points are in
chronological order of time-of-day at minute granularity, and every
point carries the date-only label equal to today's date; by contrast the
month and year reports sum amounts per bucket (each daily/monthly bucket
value is the sum of the amounts of the expenses in that bucket). -/
theorem C5_today_scatter_month_year_summed
    (db : List Expense) (userid : String) (uid : Int) (now : Date)
    (rt : TodayReport) (rm : MonthReport) (ry : YearReport)
    (hp : parseIntJS userid = some uid)
    (ht : report_today db userid now = Resp.ok rt)
    (hm : report_month db userid now = Resp.ok rm)
    (hy : report_year db userid now = Resp.ok ry) :
    rt.time_series_data.length = (db.filter (todayMatch uid now)).length ∧
    (∀ p ∈ rt.time_series_data, p.date_only = now) ∧
    rt.time_series_data.Pairwise (fun p q =>
      p.time_of_day.1 < q.time_of_day.1 ∨
        (p.time_of_day.1 = q.time_of_day.1 ∧ p.time_of_day.2 ≤ q.time_of_day.2)) ∧
    (∀ x ∈ rm.daily_totals,
      x.total_amount
        = (((db.filter (monthMatch uid now)).filter fun e => e.date.date = x.day).map
            Expense.amount).sum) ∧
    (∀ x ∈ ry.monthly_totals,
      x.total_amount
        = (((db.filter (yearMatch uid now)).filter fun e => e.date.date.month = x.month_num).map
            Expense.amount).sum) := by
  have hne : userid ≠ "" := by
    intro h
    rw [h, parseIntJS_empty] at hp
    cases hp
  simp only [report_today, hne, if_false, hp] at ht
  simp only [report_month, hne, if_false, hp] at hm
  simp only [report_year, hne, if_false, hp] at hy
  cases ht; cases hm; cases hy
  have hs : ((db.filter (todayMatch uid now)).insertionSort
      (fun a b => dtLe a.date b.date = true)).Pairwise
      (fun a b => dtLe a.date b.date = true) := by
    haveI : IsTrans Expense (fun a b => dtLe a.date b.date = true) :=
      ⟨fun a b c hab hbc => keyLe_trans _ _ _ hab hbc⟩
    haveI : IsTotal Expense (fun a b => dtLe a.date b.date = true) :=
      ⟨fun a b => by
        rcases Bool.or_eq_true .. |>.mp (keyLe_total a.date.sortKey b.date.sortKey) with h | h
        · exact Or.inl h
        · exact Or.inr h⟩
    exact List.sorted_insertionSort _ _
  have hmemdate : ∀ e ∈ (db.filter (todayMatch uid now)).insertionSort
      (fun a b => dtLe a.date b.date = true), e.date.date = now := by
    intro e he
    have : e ∈ db.filter (todayMatch uid now) := (List.mem_insertionSort _).mp he
    have := (List.mem_filter.mp this).2
    simp only [todayMatch, Bool.and_eq_true, decide_eq_true_eq] at this
    exact this.2
  refine ⟨?_, ?_, ?_, ?_, ?_⟩
  · simp only [buildTodayReport]
    rw [List.length_map, List.length_insertionSort]
  · intro p hpt
    simp only [buildTodayReport] at hpt
    obtain ⟨e, he, rfl⟩ := List.mem_map.mp hpt
    exact hmemdate e he
  · simp only [buildTodayReport]
    rw [List.pairwise_map]
    refine List.Pairwise.imp_of_mem ?_ hs
    intro a b ha hb hr
    exact dtLe_same_date ((hmemdate a ha).trans (hmemdate b hb).symm) hr
  · intro x hx
    simp only [buildMonthReport] at hx
    obtain ⟨dday, hd, rfl⟩ := List.mem_map.mp hx
    rfl
  · intro x hx
    simp only [buildYearReport] at hx
    obtain ⟨m, hmm, rfl⟩ := List.mem_map.mp hx
    rfl

/-- Witness database for the today-report claim: two expenses of user 1
on 2024-05-15 at 12:30 and 09:15. -/
def dbW5 : List Expense :=
  [⟨1, 1, ⟨⟨2024, 5, 15⟩, 12, 30, 0⟩, "tea", 2, "cash", "food"⟩,
   ⟨2, 1, ⟨⟨2024, 5, 15⟩, 9, 15, 0⟩, "bus", 1, "cash", "other"⟩]

theorem C5_today_scatter_month_year_summed_witness :
    parseIntJS "1" = some 1 ∧
    report_today dbW5 "1" ⟨2024, 5, 15⟩ = Resp.ok (buildTodayReport dbW5 1 ⟨2024, 5, 15⟩) ∧
    report_month dbW5 "1" ⟨2024, 5, 15⟩ = Resp.ok (buildMonthReport dbW5 1 ⟨2024, 5, 15⟩) ∧
    report_year dbW5 "1" ⟨2024, 5, 15⟩ = Resp.ok (buildYearReport dbW5 1 ⟨2024, 5, 15⟩) ∧
    ((buildTodayReport dbW5 1 ⟨2024, 5, 15⟩).time_series_data.length
        = (dbW5.filter (todayMatch 1 ⟨2024, 5, 15⟩)).length ∧
      (∀ p ∈ (buildTodayReport dbW5 1 ⟨2024, 5, 15⟩).time_series_data,
        p.date_only = ⟨2024, 5, 15⟩) ∧
      (buildTodayReport dbW5 1 ⟨2024, 5, 15⟩).time_series_data.Pairwise (fun p q =>
        p.time_of_day.1 < q.time_of_day.1 ∨
          (p.time_of_day.1 = q.time_of_day.1 ∧ p.time_of_day.2 ≤ q.time_of_day.2)) ∧
      (∀ x ∈ (buildMonthReport dbW5 1 ⟨2024, 5, 15⟩).daily_totals,
        x.total_amount
          = (((dbW5.filter (monthMatch 1 ⟨2024, 5, 15⟩)).filter
              fun e => e.date.date = x.day).map Expense.amount).sum) ∧
      (∀ x ∈ (buildYearReport dbW5 1 ⟨2024, 5, 15⟩).monthly_totals,
        x.total_amount
          = (((dbW5.filter (yearMatch 1 ⟨2024, 5, 15⟩)).filter
              fun e => e.date.date.month = x.month_num).map Expense.amount).sum)) :=
  ⟨by decide, rfl, rfl, rfl,
   C5_today_scatter_month_year_summed dbW5 "1" 1 ⟨2024, 5, 15⟩ _ _ _
     (by decide) rfl rfl rfl⟩

end ExpenseTracker
